import Mathlib

/-!
Verification of the multi-provider AI request router of hunter-pro-crm
(`app/services/ai_service.py` and the route layer `app/api/routes/ai.py`).

The embedding models:
- a provider adapter as a name together with its `generate` behaviour for a
  given prompt (`none` models the adapter raising, `some t` models it
  returning the text `t`);
- the registry as the insertion-ordered list of providers built by
  `AIService._initialize_providers` (Python dicts preserve insertion order);
- `AIService.generate` including its attempt trace (the ordered list of
  provider names whose `generate` was invoked during the call), its
  `ValueError("No AI providers available")` branch and its final
  `Exception("All AI providers failed")` branch;
- the `/api/ai/generate` route handler `generate_text`;
- the derived operations `analyze_sentiment` / `extract_intent`, including
  the first-`{`-to-last-`}` slicing and a JSON parser modelling
  `json.loads` on the sliced fragment.
-/

set_option autoImplicit false

namespace HunterCRM

/-- One configured backend: its registry key and its `generate` behaviour.
`outcome prompt = none` models the adapter call raising an exception,
`outcome prompt = some t` models it returning the text `t`. -/
structure Provider where
  name : String
  outcome : String → Option String

/-- The state of `AIService`: the insertion-ordered provider registry
(`self.providers`) and the configured default name
(`os.getenv("DEFAULT_AI_PROVIDER", "openai")`). -/
structure AIService where
  providers : List Provider
  default_provider : String

/-- The two fatal errors `AIService.generate` can raise:
`ValueError("No AI providers available")` and
`Exception("All AI providers failed")`.  Neither carries any payload beyond
its fixed message, exactly as in the source. -/
inductive GenError where
  | noProviders : GenError
  | allFailed : GenError
deriving DecidableEq, Repr

/-- Result of one `AIService.generate` call: the ordered list of provider
names whose `generate` was invoked, and the returned text or raised error. -/
structure GenOutcome where
  trace : List String
  result : Except GenError String
deriving Repr

/-- Python `provider or self.default_provider`: `None` and the empty string
are both falsy, so either falls back to the default name. -/
def orDefault : Option String → String → String
  | none, d => d
  | some s, d => if s = "" then d else s

/-- The resolution of `provider_name` at the top of `AIService.generate`:
the requested name if registered, else the first registered name
(`list(self.providers.keys())[0]`), and `none` when the registry is empty. -/
def resolveChosen (s : AIService) (provider : Option String) : Option String :=
  if s.providers.any (fun p => p.name == orDefault provider s.default_provider) then
    some (orDefault provider s.default_provider)
  else
    match s.providers with
    | [] => none
    | p :: _ => some p.name

/-- The fallback loop of `AIService.generate`: iterate the whole registry in
registration order, skip the provider named `skip`, try each remaining
adapter and stop at the first success.  Returns the names attempted by the
loop together with the first successful text, if any. -/
def tryFallbacks (prompt : String) : List Provider → String → List String × Option String
  | [], _ => ([], none)
  | p :: rest, skip =>
    if p.name = skip then tryFallbacks prompt rest skip
    else
      match p.outcome prompt with
      | some t => ([p.name], some t)
      | none =>
        let r := tryFallbacks prompt rest skip
        (p.name :: r.1, r.2)

/-- The names the fallback loop may visit: the registry's names in
registration order with the skipped name removed. -/
def remainingNames (ps : List Provider) (skip : String) : List String :=
  (ps.map Provider.name).filter (fun n => n != skip)

/-- `AIService.generate`.  Resolve the provider name, fail with
`noProviders` on an empty registry, invoke the chosen adapter, and on its
failure run the fallback loop; if nothing succeeds raise `allFailed`.
(The lookup `find?` cannot miss: the resolved name is always a registered
name, so the `Option.bind` only returns `none` when the chosen adapter
itself fails.) -/
def AIService.generate (s : AIService) (provider : Option String) (prompt : String) : GenOutcome :=
  match resolveChosen s provider with
  | none => ⟨[], Except.error GenError.noProviders⟩
  | some chosen =>
    match (s.providers.find? (fun p => p.name == chosen)).bind (fun p => p.outcome prompt) with
    | some t => ⟨[chosen], Except.ok t⟩
    | none =>
      match tryFallbacks prompt s.providers chosen with
      | (tr, some t) => ⟨chosen :: tr, Except.ok t⟩
      | (tr, none) => ⟨chosen :: tr, Except.error GenError.allFailed⟩

/-- The response schema of the `/api/ai/generate` route. -/
structure GenerateResponse where
  response : String
  provider : String
  model : String
deriving DecidableEq, Repr

/-- The route handler `generate_text` in `app/api/routes/ai.py`: call the
service, then tag the result with `request.provider or ai.default_provider`
and the literal model string `"auto"`.  A service error becomes the route's
HTTP 500, modelled as `Except.error`. -/
def generate_text (s : AIService) (req_prompt : String) (req_provider : Option String) :
    Except GenError GenerateResponse :=
  match (s.generate req_provider req_prompt).result with
  | Except.ok text => Except.ok ⟨text, orDefault req_provider s.default_provider, "auto"⟩
  | Except.error e => Except.error e

/-- The environment variables `_initialize_providers` consults.  `none`
models an unset variable; `some s` a variable set to `s` (Python truthiness
makes the empty string behave like an unset key). -/
structure Env where
  openai_api_key : Option String
  anthropic_api_key : Option String
  google_api_key : Option String
  groq_api_key : Option String

/-- Python truthiness of `os.getenv(...)`: set and non-empty. -/
def truthy : Option String → Bool
  | none => false
  | some s => s != ""

/-- `AIService._initialize_providers`: register each keyed backend iff its
credential is truthy, in the fixed probe order openai, claude, gemini,
groq; then always register ollama (its constructor only reads environment
defaults and cannot raise, so the surrounding try/except never fires).
`behav` gives each constructed adapter its generate behaviour. -/
def initProviders (e : Env) (behav : String → String → Option String) : List Provider :=
  (if truthy e.openai_api_key then [⟨"openai", behav "openai"⟩] else []) ++
  (if truthy e.anthropic_api_key then [⟨"claude", behav "claude"⟩] else []) ++
  (if truthy e.google_api_key then [⟨"gemini", behav "gemini"⟩] else []) ++
  (if truthy e.groq_api_key then [⟨"groq", behav "groq"⟩] else []) ++
  [⟨"ollama", behav "ollama"⟩]

/-- `AIService.__init__`: build the registry from the environment and store
the configured default name. -/
def mkAIService (e : Env) (behav : String → String → Option String) (dflt : String) : AIService :=
  ⟨initProviders e behav, dflt⟩

/-- The character `{` (written by code so that string literals stay free of
raw braces). -/
def lbrace : Char := '\x7b'

/-- The character `}`. -/
def rbrace : Char := '\x7d'

/-- Python `str.find(c)`: index of the first occurrence, `none` for -1. -/
def strFind : List Char → Char → Option Nat
  | [], _ => none
  | c :: rest, t => if c = t then some 0 else (strFind rest t).map (· + 1)

/-- Python `str.rfind(c)`: index of the last occurrence, `none` for -1. -/
def strRfind : List Char → Char → Option Nat
  | [], _ => none
  | c :: rest, t =>
    match strRfind rest t with
    | some j => some (j + 1)
    | none => if c = t then some 0 else none

/-- JSON values as produced by `json.loads`.  A number literal is modelled
exactly as the decimal it is written as: `num m e` stands for `m · 10^e`
(so `0.9` is `num 9 (-1)`); Python's binary floats are abstracted to these
exact decimals, which the claims under check never distinguish. -/
inductive Json where
  | null : Json
  | bool : Bool → Json
  | num : Int → Int → Json
  | str : String → Json
  | arr : List Json → Json
  | obj : List (String × Json) → Json

/-- JSON insignificant whitespace. -/
def isWs (c : Char) : Bool := c = ' ' || c = '\t' || c = '\n' || c = '\r'

/-- Drop leading JSON whitespace. -/
def skipWs : List Char → List Char
  | [] => []
  | c :: rest => if isWs c then skipWs rest else c :: rest

/-- Value of a two-character JSON escape. -/
def escChar (c : Char) : Option Char :=
  if c = '"' then some '"'
  else if c = '\\' then some '\\'
  else if c = '/' then some '/'
  else if c = 'b' then some (Char.ofNat 8)
  else if c = 'f' then some (Char.ofNat 12)
  else if c = 'n' then some '\n'
  else if c = 'r' then some '\r'
  else if c = 't' then some '\t'
  else none

/-- Value of a hexadecimal digit. -/
def hexVal (c : Char) : Option Nat :=
  if '0' ≤ c ∧ c ≤ '9' then some (c.toNat - 48)
  else if 'a' ≤ c ∧ c ≤ 'f' then some (c.toNat - 87)
  else if 'A' ≤ c ∧ c ≤ 'F' then some (c.toNat - 55)
  else none

/-- Body of a JSON string (everything after the opening quote), returning
the decoded characters and the remaining input after the closing quote.
Unescaped control characters are rejected, as in strict `json.loads`. -/
def parseStringBody : List Char → Option (List Char × List Char)
  | [] => none
  | c :: rest =>
    if c = '"' then some ([], rest)
    else if c = '\\' then
      match rest with
      | 'u' :: h1 :: h2 :: h3 :: h4 :: rest2 =>
        match hexVal h1, hexVal h2, hexVal h3, hexVal h4 with
        | some a, some b, some d, some e =>
          (parseStringBody rest2).map (fun pr => (Char.ofNat (((a * 16 + b) * 16 + d) * 16 + e) :: pr.1, pr.2))
        | _, _, _, _ => none
      | e :: rest2 =>
        match escChar e with
        | some ec => (parseStringBody rest2).map (fun pr => (ec :: pr.1, pr.2))
        | none => none
      | [] => none
    else if c.toNat < 32 then none
    else (parseStringBody rest).map (fun pr => (c :: pr.1, pr.2))

/-- Split off a maximal run of decimal digits. -/
def parseDigits (l : List Char) : List Char × List Char :=
  (l.takeWhile Char.isDigit, l.dropWhile Char.isDigit)

/-- Numeric value of a digit run. -/
def digitsVal (ds : List Char) : Nat :=
  ds.foldl (fun a c => a * 10 + (c.toNat - 48)) 0

/-- Optional fraction part of a JSON number: its digit run. -/
def parseFrac : List Char → Option (List Char × List Char)
  | '.' :: rest =>
    match parseDigits rest with
    | ([], _) => none
    | (fs, l3) => some (fs, l3)
  | l => some ([], l)

/-- Optional exponent part of a JSON number. -/
def parseExp : List Char → Option (Int × List Char)
  | [] => some (0, [])
  | c :: rest =>
    if c = 'e' ∨ c = 'E' then
      let sr : Int × List Char :=
        match rest with
        | '+' :: r => (1, r)
        | '-' :: r => (-1, r)
        | r => (1, r)
      match parseDigits sr.2 with
      | ([], _) => none
      | (es, l3) => some (sr.1 * (digitsVal es : Int), l3)
    else some (0, c :: rest)

/-- A JSON number (leading zeros rejected, as in `json.loads`), returned
as the exact decimal (mantissa, base-10 exponent) it is written as. -/
def parseNumber (l : List Char) : Option ((Int × Int) × List Char) :=
  let sl : Bool × List Char :=
    match l with
    | '-' :: rest => (true, rest)
    | _ => (false, l)
  match parseDigits sl.2 with
  | ([], _) => none
  | (d0 :: dtl, l2) =>
    if d0 = '0' ∧ dtl ≠ [] then none
    else
      match parseFrac l2 with
      | none => none
      | some (fs, l3) =>
        match parseExp l3 with
        | none => none
        | some (ex, l4) =>
          let m : Int := (digitsVal ((d0 :: dtl) ++ fs) : Int)
          some ((if sl.1 then -m else m, ex - (fs.length : Int)), l4)

mutual

/-- A JSON value (fuel-indexed recursive descent; the fuel passed by
`parseJson` always suffices for its input). -/
def parseValue : Nat → List Char → Option (Json × List Char)
  | 0, _ => none
  | fuel + 1, l =>
    match skipWs l with
    | [] => none
    | c :: rest =>
      if c = '"' then
        (parseStringBody rest).map (fun pr => (Json.str (String.mk pr.1), pr.2))
      else if c = 't' then
        match rest with
        | 'r' :: 'u' :: 'e' :: r => some (Json.bool true, r)
        | _ => none
      else if c = 'f' then
        match rest with
        | 'a' :: 'l' :: 's' :: 'e' :: r => some (Json.bool false, r)
        | _ => none
      else if c = 'n' then
        match rest with
        | 'u' :: 'l' :: 'l' :: r => some (Json.null, r)
        | _ => none
      else if c = '[' then
        match skipWs rest with
        | ']' :: r => some (Json.arr [], r)
        | l2 => (parseElems fuel l2).map (fun pr => (Json.arr pr.1, pr.2))
      else if c = lbrace then
        match skipWs rest with
        | [] => none
        | c2 :: r =>
          if c2 = rbrace then some (Json.obj [], r)
          else (parseMembers fuel (c2 :: r)).map (fun pr => (Json.obj pr.1, pr.2))
      else
        (parseNumber (c :: rest)).map (fun pr => (Json.num pr.1.1 pr.1.2, pr.2))

/-- Elements of a non-empty JSON array, up to and including `]`. -/
def parseElems : Nat → List Char → Option (List Json × List Char)
  | 0, _ => none
  | fuel + 1, l =>
    match parseValue fuel l with
    | none => none
    | some (v, r) =>
      match skipWs r with
      | ',' :: r2 => (parseElems fuel r2).map (fun pr => (v :: pr.1, pr.2))
      | ']' :: r2 => some ([v], r2)
      | _ => none

/-- Members of a non-empty JSON object, up to and including `}`. -/
def parseMembers : Nat → List Char → Option (List (String × Json) × List Char)
  | 0, _ => none
  | fuel + 1, l =>
    match skipWs l with
    | '"' :: r =>
      match parseStringBody r with
      | none => none
      | some (k, r2) =>
        match skipWs r2 with
        | ':' :: r3 =>
          match parseValue fuel r3 with
          | none => none
          | some (v, r4) =>
            match skipWs r4 with
            | [] => none
            | c :: r5 =>
              if c = ',' then (parseMembers fuel r5).map (fun pr => ((String.mk k, v) :: pr.1, pr.2))
              else if c = rbrace then some ([(String.mk k, v)], r5)
              else none
        | _ => none
    | _ => none

end

/-- `json.loads` on a character list: parse one JSON value and require only
whitespace after it (`json.loads` raises on trailing data). -/
def parseJson (l : List Char) : Option Json :=
  match parseValue (2 * l.length + 2) l with
  | some (v, rest) => if (skipWs rest).isEmpty then some v else none
  | none => none

/-- The sentiment prompt template of `AIService.analyze_sentiment`. -/
def sentimentPrompt (text : String) : String :=
  "Analyze the sentiment of the following text and respond with JSON only:\n\nText: " ++ text ++
  "\n\nRespond with this exact JSON structure:\n\x7b\n    \"sentiment\": \"positive/negative/neutral\",\n    \"confidence\": 0.0-1.0,\n    \"emotions\": [\"emotion1\", \"emotion2\"],\n    \"tone\": \"description of tone\"\n\x7d"

/-- The intent prompt template of `AIService.extract_intent`. -/
def intentPrompt (text : String) : String :=
  "Extract the intent from the following text and respond with JSON only:\n\nText: " ++ text ++
  "\n\nRespond with this exact JSON structure:\n\x7b\n    \"primary_intent\": \"intent_name\",\n    \"confidence\": 0.0-1.0,\n    \"entities\": \x7b\"entity_type\": \"entity_value\"\x7d,\n    \"action_required\": \"suggested action\"\n\x7d"

/-- The dict `analyze_sentiment` returns when the response holds no JSON
span (`json_start == -1 or json_end <= json_start`). -/
def sentimentNeutralDefault : Json :=
  Json.obj [("sentiment", Json.str "neutral"), ("confidence", Json.num 5 (-1)),
    ("emotions", Json.arr []), ("tone", Json.str "unclear")]

/-- The dict the `except` clause of `analyze_sentiment` returns (reached on
any exception: a failed router call or a `json.loads` error). -/
def sentimentErrorDefault : Json :=
  Json.obj [("sentiment", Json.str "neutral"), ("confidence", Json.num 0 0),
    ("emotions", Json.arr []), ("tone", Json.str "error")]

/-- The no-JSON-span dict of `extract_intent`. -/
def intentNeutralDefault : Json :=
  Json.obj [("primary_intent", Json.str "unknown"), ("confidence", Json.num 0 0),
    ("entities", Json.obj []), ("action_required", Json.str "clarify")]

/-- The `except`-clause dict of `extract_intent`. -/
def intentErrorDefault : Json :=
  Json.obj [("primary_intent", Json.str "unknown"), ("confidence", Json.num 0 0),
    ("entities", Json.obj []), ("action_required", Json.str "error")]

/-- The response-processing step shared by `analyze_sentiment`'s happy
path, given the raw text a successful router call returned:
`json_start = response.find("\x7b")`, `json_end = response.rfind("\x7d") + 1`;
when `json_start != -1 and json_end > json_start` (equivalently: both
braces found and first-`\x7b` index `≤` last-`\x7d` index), slice and
`json.loads`; a loads error is caught by the surrounding `except`, which
returns the error dict; otherwise return the neutral dict. -/
def sentimentParse (response : String) : Json :=
  match strFind response.toList lbrace, strRfind response.toList rbrace with
  | some i, some j =>
    if i ≤ j then
      match parseJson ((response.toList.drop i).take (j + 1 - i)) with
      | some v => v
      | none => sentimentErrorDefault
    else sentimentNeutralDefault
  | _, _ => sentimentNeutralDefault

/-- Same slicing for `extract_intent` (identical code, different defaults). -/
def intentParse (response : String) : Json :=
  match strFind response.toList lbrace, strRfind response.toList rbrace with
  | some i, some j =>
    if i ≤ j then
      match parseJson ((response.toList.drop i).take (j + 1 - i)) with
      | some v => v
      | none => intentErrorDefault
    else intentNeutralDefault
  | _, _ => intentNeutralDefault

/-- `AIService.analyze_sentiment`: one router call on the sentiment prompt;
the whole body sits in a `try`, so a failed router call lands in the
`except` clause and yields the error dict — it is never re-raised. -/
def AIService.analyzeSentiment (s : AIService) (text : String) : Json :=
  match (s.generate none (sentimentPrompt text)).result with
  | Except.ok response => sentimentParse response
  | Except.error _ => sentimentErrorDefault

/-- `AIService.extract_intent`, same structure. -/
def AIService.extractIntent (s : AIService) (text : String) : Json :=
  match (s.generate none (intentPrompt text)).result with
  | Except.ok response => intentParse response
  | Except.error _ => intentErrorDefault

/-- Modelled from the spec (not the source): the spec's edge-case policy
says a failure of the underlying router call "propagates to the caller
unmodified" and only parse failures are swallowed.  This definition follows
those words so it can be compared with the source-modelled
`AIService.analyzeSentiment`. -/
def analyzeSentimentSpec (s : AIService) (text : String) : Except GenError Json :=
  match (s.generate none (sentimentPrompt text)).result with
  | Except.error e => Except.error e
  | Except.ok response => Except.ok (sentimentParse response)

/-- Projection used to separate concrete `Json` records: the decimal
(mantissa, exponent) of the "confidence" member of an object. -/
def jsonConfidence : Json → Option (Int × Int)
  | Json.obj kvs =>
    match kvs.lookup "confidence" with
    | some (Json.num m e) => some (m, e)
    | _ => none
  | _ => none

/-- The structured record of the spec's embedded-JSON test, as parsed. -/
def targetSentimentRecord : Json :=
  Json.obj [("sentiment", Json.str "positive"), ("confidence", Json.num 9 (-1)),
    ("emotions", Json.arr [Json.str "joy"]), ("tone", Json.str "upbeat")]

/-- The raw JSON object text of the spec's embedded-JSON test. -/
def targetObjText : String :=
  "\x7b\"sentiment\":\"positive\",\"confidence\":0.9,\"emotions\":[\"joy\"],\"tone\":\"upbeat\"\x7d"

/-! ## Lemmas about the find/rfind slicing -/

theorem strFind_eq_none {l : List Char} {c : Char} (h : c ∉ l) : strFind l c = none := by
  induction l with
  | nil => rfl
  | cons d t ih =>
    simp only [List.mem_cons, not_or] at h
    have hdc : d ≠ c := fun hdc => h.1 hdc.symm
    simp [strFind, hdc, ih h.2]

theorem strRfind_eq_none {l : List Char} {c : Char} (h : c ∉ l) : strRfind l c = none := by
  induction l with
  | nil => rfl
  | cons d t ih =>
    simp only [List.mem_cons, not_or] at h
    have hdc : d ≠ c := fun hdc => h.1 hdc.symm
    simp [strRfind, hdc, ih h.2]

theorem strFind_cons_eq (d : Char) (t : List Char) (c : Char) :
    strFind (d :: t) c = if d = c then some 0 else (strFind t c).map (· + 1) := rfl

theorem strRfind_cons_eq (d : Char) (t : List Char) (c : Char) :
    strRfind (d :: t) c =
      match strRfind t c with
      | some j => some (j + 1)
      | none => if d = c then some 0 else none := rfl

theorem strFind_append_of_none {a : List Char} (b : List Char) {c : Char}
    (h : strFind a c = none) :
    strFind (a ++ b) c = (strFind b c).map (a.length + ·) := by
  induction a with
  | nil =>
    cases hfb : strFind b c with
    | none => simp [hfb]
    | some i => simp [hfb]
  | cons d t ih =>
    rw [strFind_cons_eq] at h
    by_cases hd : d = c
    · rw [if_pos hd] at h
      cases h
    · rw [if_neg hd] at h
      have ht : strFind t c = none := by
        cases hft : strFind t c with
        | none => rfl
        | some i => rw [hft] at h; cases h
      rw [List.cons_append, strFind_cons_eq, if_neg hd, ih ht]
      cases hfb : strFind b c with
      | none => simp
      | some i =>
        simp only [Option.map_some', Option.some.injEq, List.length_cons]
        omega

theorem strFind_append_of_some {a : List Char} (b : List Char) {c : Char} {i : Nat}
    (h : strFind a c = some i) :
    strFind (a ++ b) c = some i := by
  induction a generalizing i with
  | nil => cases h
  | cons d t ih =>
    rw [strFind_cons_eq] at h
    by_cases hd : d = c
    · rw [if_pos hd] at h
      rw [List.cons_append, strFind_cons_eq, if_pos hd]
      exact h
    · rw [if_neg hd] at h
      cases hf : strFind t c with
      | none => rw [hf] at h; cases h
      | some i2 =>
        rw [hf, Option.map_some'] at h
        rw [List.cons_append, strFind_cons_eq, if_neg hd, ih hf, Option.map_some']
        exact h

theorem strRfind_append_of_none (a : List Char) {b : List Char} {c : Char}
    (h : strRfind b c = none) :
    strRfind (a ++ b) c = strRfind a c := by
  induction a with
  | nil => simpa using h
  | cons d t ih =>
    rw [List.cons_append, strRfind_cons_eq, strRfind_cons_eq, ih]

theorem strRfind_append_of_some (a : List Char) {b : List Char} {c : Char} {j : Nat}
    (h : strRfind b c = some j) :
    strRfind (a ++ b) c = some (a.length + j) := by
  induction a with
  | nil => simpa using h
  | cons d t ih =>
    rw [List.cons_append, strRfind_cons_eq, ih]
    simp only [Option.some.injEq, List.length_cons]
    omega

theorem strFind_getElem {l : List Char} {c : Char} {i : Nat} (h : strFind l c = some i) :
    l[i]? = some c := by
  induction l generalizing i with
  | nil => cases h
  | cons d t ih =>
    rw [strFind_cons_eq] at h
    by_cases hd : d = c
    · rw [if_pos hd] at h
      have hi : i = 0 := by
        cases h
        rfl
      subst hi
      simp [hd]
    · rw [if_neg hd] at h
      cases hf : strFind t c with
      | none => rw [hf] at h; cases h
      | some i2 =>
        rw [hf, Option.map_some'] at h
        have hi : i = i2 + 1 := by
          cases h
          rfl
        subst hi
        simpa using ih hf

theorem strRfind_getElem {l : List Char} {c : Char} {j : Nat} (h : strRfind l c = some j) :
    l[j]? = some c := by
  induction l generalizing j with
  | nil => cases h
  | cons d t ih =>
    rw [strRfind_cons_eq] at h
    cases hrt : strRfind t c with
    | some j2 =>
      rw [hrt] at h
      have hj : j = j2 + 1 := by
        cases h
        rfl
      subst hj
      simpa using ih hrt
    | none =>
      rw [hrt] at h
      by_cases hd : d = c
      · rw [if_pos hd] at h
        have hj : j = 0 := by
          cases h
          rfl
        subst hj
        simp [hd]
      · rw [if_neg hd] at h
        cases h

theorem parseJson_targetObj : parseJson targetObjText.toList = some targetSentimentRecord := rfl

/-! ## Lemmas about the router -/

theorem generate_eq_of_resolve (s : AIService) (ov : Option String) (prompt chosen : String)
    (h : resolveChosen s ov = some chosen) :
    s.generate ov prompt =
      match (s.providers.find? (fun p => p.name == chosen)).bind (fun p => p.outcome prompt) with
      | some t => ⟨[chosen], Except.ok t⟩
      | none =>
        match tryFallbacks prompt s.providers chosen with
        | (tr, some t) => ⟨chosen :: tr, Except.ok t⟩
        | (tr, none) => ⟨chosen :: tr, Except.error GenError.allFailed⟩ := by
  unfold AIService.generate
  rw [h]

theorem generate_trace_head (s : AIService) (ov : Option String) (prompt chosen : String)
    (h : resolveChosen s ov = some chosen) :
    (s.generate ov prompt).trace.head? = some chosen := by
  rw [generate_eq_of_resolve s ov prompt chosen h]
  cases (s.providers.find? (fun p => p.name == chosen)).bind (fun p => p.outcome prompt) with
  | some t => rfl
  | none =>
    rcases tryFallbacks prompt s.providers chosen with ⟨tr, _ | t⟩ <;> rfl

theorem resolveChosen_isSome (s : AIService) (ov : Option String) (hne : s.providers ≠ []) :
    ∃ c, resolveChosen s ov = some c := by
  unfold resolveChosen
  by_cases h : s.providers.any (fun p => p.name == orDefault ov s.default_provider) = true
  · rw [if_pos h]
    exact ⟨_, rfl⟩
  · rw [if_neg h]
    rcases hps : s.providers with _ | ⟨p, rest⟩
    · exact absurd hps hne
    · exact ⟨p.name, rfl⟩

theorem generate_ne_noProviders (s : AIService) (ov : Option String) (prompt : String)
    (hne : s.providers ≠ []) :
    (s.generate ov prompt).result ≠ Except.error GenError.noProviders := by
  obtain ⟨c, hc⟩ := resolveChosen_isSome s ov hne
  rw [generate_eq_of_resolve s ov prompt c hc]
  cases (s.providers.find? (fun p => p.name == c)).bind (fun p => p.outcome prompt) with
  | some t => simp
  | none =>
    rcases tryFallbacks prompt s.providers c with ⟨tr, _ | t⟩ <;> simp

theorem tryFallbacks_fst_sublist (prompt : String) (ps : List Provider) (skip : String) :
    (tryFallbacks prompt ps skip).1.Sublist (remainingNames ps skip) := by
  induction ps with
  | nil => simp [tryFallbacks, remainingNames]
  | cons p rest ih =>
    by_cases hp : p.name = skip
    · simpa [tryFallbacks, remainingNames, hp] using ih
    · cases ho : p.outcome prompt with
      | some t => simp [tryFallbacks, remainingNames, hp, ho]
      | none =>
        simp only [tryFallbacks, remainingNames, hp, ho, List.map_cons, List.filter_cons]
        simp only [remainingNames] at ih
        simp [hp, List.cons_sublist_cons, ih]

theorem tryFallbacks_all_fail (prompt : String) (ps : List Provider) (skip : String)
    (h : ∀ p ∈ ps, p.outcome prompt = none) :
    tryFallbacks prompt ps skip = (remainingNames ps skip, none) := by
  induction ps with
  | nil => rfl
  | cons p rest ih =>
    have hp0 := h p (List.mem_cons_self _ _)
    have ih2 := ih (fun q hq => h q (List.mem_cons_of_mem _ hq))
    by_cases hp : p.name = skip
    · simp [tryFallbacks, remainingNames, hp, ih2]
    · simp only [tryFallbacks, remainingNames, hp, hp0, if_neg hp, List.map_cons, List.filter_cons]
      simp only [remainingNames] at ih2
      simp [hp, ih2]

theorem skip_not_mem_tryFallbacks (prompt : String) (ps : List Provider) (skip : String) :
    skip ∉ (tryFallbacks prompt ps skip).1 := by
  intro hmem
  have hsub := (tryFallbacks_fst_sublist prompt ps skip).subset hmem
  simp [remainingNames] at hsub

theorem find_bind_none_of_all (prompt chosen : String) (ps : List Provider)
    (h : ∀ p ∈ ps, p.name = chosen → p.outcome prompt = none) :
    (ps.find? (fun p => p.name == chosen)).bind (fun p => p.outcome prompt) = none := by
  cases hf : ps.find? (fun p => p.name == chosen) with
  | none => rfl
  | some p =>
    have hm := List.mem_of_find?_eq_some hf
    have hp := List.find?_some hf
    simp only [beq_iff_eq] at hp
    simp [h p hm hp]

/-! ## Claims about the router -/

/-- C7: with an empty registry, every call to generate fails immediately
with the no-providers error, and no adapter's generate is invoked (the
attempt trace is empty). -/
theorem empty_registry_fails_immediately (dflt prompt : String) (ov : Option String) :
    (AIService.mk [] dflt).generate ov prompt = ⟨[], Except.error GenError.noProviders⟩ := rfl

/-- C5: for every registry and a request with no explicit provider
override, if the provider named by the configured default is registered, it
is the first provider whose generate is invoked. -/
theorem default_attempted_first (s : AIService) (prompt : String)
    (h : ∃ p ∈ s.providers, p.name = s.default_provider) :
    ((s.generate none prompt).trace).head? = some s.default_provider := by
  apply generate_trace_head
  unfold resolveChosen
  have hany : s.providers.any (fun p => p.name == s.default_provider) = true := by
    rcases h with ⟨p, hp, hname⟩
    simp only [List.any_eq_true, beq_iff_eq]
    exact ⟨p, hp, hname⟩
  simp [orDefault, hany]

theorem default_attempted_first_witness :
    (((AIService.mk [⟨"A", fun _ => some "ok"⟩] "A").generate none "p").trace).head? = some "A" :=
  default_attempted_first (AIService.mk [⟨"A", fun _ => some "ok"⟩] "A") "p"
    ⟨⟨"A", fun _ => some "ok"⟩, List.mem_cons_self _ _, rfl⟩

/-- C6: if the resolved name (explicit override or configured default) is
not registered and the registry is non-empty, the first-registered provider
is attempted first, and the substitution raises no error (in particular the
no-providers error is not raised). -/
theorem unregistered_default_uses_first (s : AIService) (ov : Option String) (prompt : String)
    (hne : s.providers ≠ [])
    (hnr : ∀ p ∈ s.providers, p.name ≠ orDefault ov s.default_provider) :
    ((s.generate ov prompt).trace).head? = (s.providers.map Provider.name).head? ∧
      (s.generate ov prompt).result ≠ Except.error GenError.noProviders := by
  refine ⟨?_, generate_ne_noProviders s ov prompt hne⟩
  rcases hps : s.providers with _ | ⟨p, rest⟩
  · exact absurd hps hne
  · have hres : resolveChosen s ov = some p.name := by
      unfold resolveChosen
      have hany : s.providers.any (fun q => q.name == orDefault ov s.default_provider) = false := by
        simp only [List.any_eq_false, beq_iff_eq]
        exact hnr
      rw [hany]
      simp [hps]
    rw [generate_trace_head s ov prompt p.name hres]
    rfl

theorem unregistered_default_uses_first_witness :
    (((AIService.mk [⟨"A", fun _ => some "ok"⟩] "Z").generate none "p").trace).head? =
        ((AIService.mk [⟨"A", fun _ => some "ok"⟩] "Z").providers.map Provider.name).head? :=
  (unregistered_default_uses_first (AIService.mk [⟨"A", fun _ => some "ok"⟩] "Z") none "p"
    (by simp)
    (by
      intro p hp
      rcases List.mem_singleton.1 hp with rfl
      exact by decide)).1

/-- C10: the registry built by the constructor always contains the
"ollama" entry (its adapter constructor only reads environment defaults
and cannot fail), so the registry is never empty and no call ever raises
the no-providers error. -/
theorem ollama_always_registered (e : Env) (behav : String → String → Option String)
    (dflt prompt : String) (ov : Option String) :
    "ollama" ∈ (initProviders e behav).map Provider.name ∧
      ((mkAIService e behav dflt).generate ov prompt).result ≠ Except.error GenError.noProviders := by
  have hmem : (⟨"ollama", behav "ollama"⟩ : Provider) ∈ initProviders e behav := by
    unfold initProviders
    simp [List.mem_append]
  refine ⟨List.mem_map_of_mem Provider.name hmem, ?_⟩
  exact generate_ne_noProviders (mkAIService e behav dflt) ov prompt (List.ne_nil_of_mem hmem)

/-- C3 (amended): when every registered provider fails, generate raises the
single generic all-providers-failed error; as in the source, that error is
a bare exception with a fixed message and carries no per-provider failure
records. -/
theorem all_fail_generic_error (s : AIService) (ov : Option String) (prompt : String)
    (hne : s.providers ≠ [])
    (hall : ∀ p ∈ s.providers, p.outcome prompt = none) :
    (s.generate ov prompt).result = Except.error GenError.allFailed := by
  obtain ⟨c, hc⟩ := resolveChosen_isSome s ov hne
  rw [generate_eq_of_resolve s ov prompt c hc]
  rw [find_bind_none_of_all prompt c s.providers (fun p hp _ => hall p hp)]
  rw [tryFallbacks_all_fail prompt s.providers c hall]

theorem all_fail_generic_error_witness :
    ((AIService.mk [⟨"A", fun _ => none⟩] "A").generate none "p").result =
      Except.error GenError.allFailed :=
  all_fail_generic_error (AIService.mk [⟨"A", fun _ => none⟩] "A") none "p"
    (by simp)
    (by
      intro p hp
      rcases List.mem_singleton.1 hp with rfl
      rfl)

/-- C3 (counterexample): the all-failed error cannot carry exactly N
per-provider failure records: a one-provider registry where everything
fails and a two-provider registry where everything fails raise the very
same error value, while their provider counts differ.  In the source the
raised object is the payload-free `Exception("All AI providers failed")`. -/
theorem all_fail_no_records_cex :
    ((AIService.mk [⟨"A", fun _ => none⟩] "A").generate none "p").result =
        Except.error GenError.allFailed ∧
      ((AIService.mk [⟨"A", fun _ => none⟩, ⟨"B", fun _ => none⟩] "A").generate none "p").result =
        Except.error GenError.allFailed ∧
      ((AIService.mk [⟨"A", fun _ => none⟩] "A").generate none "p").result =
        ((AIService.mk [⟨"A", fun _ => none⟩, ⟨"B", fun _ => none⟩] "A").generate none "p").result ∧
      (AIService.mk [⟨"A", fun _ => none⟩] "A").providers.length = 1 ∧
      (AIService.mk [⟨"A", fun _ => none⟩, ⟨"B", fun _ => none⟩] "A").providers.length = 2 :=
  ⟨rfl, rfl, rfl, rfl, rfl⟩

/-- C4: in a call whose initially-chosen provider fails, the fallback loop
skips that provider, visits only remaining registered providers in
registration order each at most once (its trace is a sublist of the
remaining names), the whole trace repeats no provider, and when every
provider fails the remaining providers are attempted exhaustively in
registration order. -/
theorem fallback_skips_chosen_no_repeat (s : AIService) (ov : Option String)
    (prompt chosen : String)
    (hres : resolveChosen s ov = some chosen)
    (hfail : ∀ p ∈ s.providers, p.name = chosen → p.outcome prompt = none)
    (hnd : (s.providers.map Provider.name).Nodup) :
    (s.generate ov prompt).trace = chosen :: (tryFallbacks prompt s.providers chosen).1 ∧
      (tryFallbacks prompt s.providers chosen).1.Sublist (remainingNames s.providers chosen) ∧
      (s.generate ov prompt).trace.Nodup ∧
      ((∀ p ∈ s.providers, p.outcome prompt = none) →
        (s.generate ov prompt).trace = chosen :: remainingNames s.providers chosen) := by
  have hbind := find_bind_none_of_all prompt chosen s.providers hfail
  have htr : (s.generate ov prompt).trace = chosen :: (tryFallbacks prompt s.providers chosen).1 := by
    rw [generate_eq_of_resolve s ov prompt chosen hres, hbind]
    rcases tryFallbacks prompt s.providers chosen with ⟨tr, _ | t⟩ <;> rfl
  refine ⟨htr, tryFallbacks_fst_sublist prompt s.providers chosen, ?_, ?_⟩
  · rw [htr]
    refine List.nodup_cons.2 ⟨skip_not_mem_tryFallbacks prompt s.providers chosen, ?_⟩
    exact (tryFallbacks_fst_sublist prompt s.providers chosen).nodup (hnd.filter _)
  · intro hall
    rw [htr, tryFallbacks_all_fail prompt s.providers chosen hall]

theorem fallback_skips_chosen_no_repeat_witness :
    ((AIService.mk [⟨"A", fun _ => none⟩, ⟨"B", fun _ => some "ok"⟩] "A").generate
      none "p").trace.Nodup :=
  (fallback_skips_chosen_no_repeat
    (AIService.mk [⟨"A", fun _ => none⟩, ⟨"B", fun _ => some "ok"⟩] "A") none "p" "A"
    rfl
    (by
      intro p hp hname
      rcases List.mem_cons.1 hp with rfl | hp2
      · rfl
      · rcases List.mem_cons.1 hp2 with rfl | hp3
        · exact absurd hname (by decide)
        · exact absurd hp3 (List.not_mem_nil _))
    (by decide)).2.2.1

/-- C1 (amended): with registry A (fails) then B (succeeds) and default A,
the route returns a successful result whose provider field is the
requested-or-default name A — not B, the provider that actually produced
the text; the route tags `request.provider or ai.default_provider` and the
service returns only the text, so the actual producer is not reported. -/
theorem route_provider_tag_requested (a b : String) (fA fB : String → Option String)
    (prompt t : String) (hab : a ≠ b) (hA : fA prompt = none) (hB : fB prompt = some t) :
    generate_text (AIService.mk [⟨a, fA⟩, ⟨b, fB⟩] a) prompt none =
      Except.ok ⟨t, a, "auto"⟩ := by
  have hba : b ≠ a := hab.symm
  simp [generate_text, AIService.generate, resolveChosen, orDefault, tryFallbacks,
    List.find?, hA, hB, hba]

theorem route_provider_tag_requested_witness :
    generate_text (AIService.mk [⟨"A", fun _ => none⟩, ⟨"B", fun _ => some "ok"⟩] "A") "p" none =
      Except.ok ⟨"ok", "A", "auto"⟩ :=
  route_provider_tag_requested "A" "B" (fun _ => none) (fun _ => some "ok") "p" "ok"
    (by decide) rfl rfl

/-- C1 (counterexample): registry = A (fails), B (succeeds), default A, no
override: the route succeeds, the trace shows B served the request, yet the
returned provider field is "A", not "B" as the claim states. -/
theorem route_provider_tag_cex :
    generate_text (AIService.mk [⟨"A", fun _ => none⟩, ⟨"B", fun _ => some "text from B"⟩] "A")
        "p" none = Except.ok ⟨"text from B", "A", "auto"⟩ ∧
      ((AIService.mk [⟨"A", fun _ => none⟩, ⟨"B", fun _ => some "text from B"⟩] "A").generate
        none "p").trace = ["A", "B"] ∧
      ("A" : String) ≠ "B" :=
  ⟨rfl, rfl, by decide⟩

/-- C2 (amended): when the underlying router call fails, analyze_sentiment
and extract_intent do not propagate the failure: the whole operation body
sits in a try/except, so the failure is caught and the error-default
record (confidence 0, tone/action "error") is returned instead. -/
theorem derived_ops_swallow_router_failures (s : AIService) (text : String) :
    ((∃ e, (s.generate none (sentimentPrompt text)).result = Except.error e) →
        s.analyzeSentiment text = sentimentErrorDefault) ∧
      ((∃ e, (s.generate none (intentPrompt text)).result = Except.error e) →
        s.extractIntent text = intentErrorDefault) := by
  constructor
  · rintro ⟨e, he⟩
    unfold AIService.analyzeSentiment
    rw [he]
  · rintro ⟨e, he⟩
    unfold AIService.extractIntent
    rw [he]

theorem derived_ops_swallow_router_failures_witness :
    (AIService.mk [] "openai").analyzeSentiment "hi" = sentimentErrorDefault :=
  (derived_ops_swallow_router_failures (AIService.mk [] "openai") "hi").1
    ⟨GenError.noProviders, rfl⟩

/-- C2 (counterexample): with an empty registry the router call inside
analyze_sentiment fails, yet the operation returns the error-default
record as a normal result; the spec-modelled propagating variant returns
the error instead, so the failure does not propagate unmodified. -/
theorem derived_ops_propagation_cex :
    ((AIService.mk [] "openai").generate none (sentimentPrompt "hi")).result =
        Except.error GenError.noProviders ∧
      (AIService.mk [] "openai").analyzeSentiment "hi" = sentimentErrorDefault ∧
      analyzeSentimentSpec (AIService.mk [] "openai") "hi" =
        Except.error GenError.noProviders ∧
      Except.ok ((AIService.mk [] "openai").analyzeSentiment "hi") ≠
        analyzeSentimentSpec (AIService.mk [] "openai") "hi" := by
  refine ⟨rfl, rfl, rfl, ?_⟩
  intro h
  rw [show analyzeSentimentSpec (AIService.mk [] "openai") "hi" =
    Except.error GenError.noProviders from rfl] at h
  exact Except.noConfusion h

/-- C9: whenever the router call inside analyze_sentiment succeeds with a
raw response containing no brace pair (no index of a left brace weakly
before an index of a right brace), analyze_sentiment returns the neutral
record (sentiment neutral, confidence 0.5, no emotions, tone unclear) as a
normal result rather than raising. -/
theorem sentiment_no_brace_neutral (s : AIService) (text response : String)
    (hok : (s.generate none (sentimentPrompt text)).result = Except.ok response)
    (h : ¬ ∃ i j : Nat, i ≤ j ∧ response.toList[i]? = some lbrace ∧
      response.toList[j]? = some rbrace) :
    s.analyzeSentiment text = sentimentNeutralDefault := by
  unfold AIService.analyzeSentiment
  rw [hok]
  show sentimentParse response = sentimentNeutralDefault
  unfold sentimentParse
  cases hf : strFind response.toList lbrace with
  | none =>
    cases hr : strRfind response.toList rbrace with
    | none => rfl
    | some j => rfl
  | some i =>
    cases hr : strRfind response.toList rbrace with
    | none => rfl
    | some j =>
      have hij : ¬ i ≤ j := fun hle =>
        h ⟨i, j, hle, strFind_getElem hf, strRfind_getElem hr⟩
      exact if_neg hij

theorem sentiment_no_brace_neutral_witness :
    (AIService.mk [⟨"m", fun _ => some "no json here"⟩] "m").analyzeSentiment "t" =
      sentimentNeutralDefault :=
  sentiment_no_brace_neutral (AIService.mk [⟨"m", fun _ => some "no json here"⟩] "m")
    "t" "no json here" rfl
    (by
      rintro ⟨i, j, hij, hi, hj⟩
      exact absurd (List.getElem?_mem hi) (by decide))

/-- C8 (amended): the claim holds for responses in which the embedded
object is delimited by the response's first left brace and last right
brace: for every response of the form pre ++ object ++ suf with no left
brace in pre and no right brace in suf, analyze_sentiment's parsing
returns exactly the embedded record.  (It fails for arbitrary embeddings:
see the counterexample, where an earlier JSON fragment widens the
first-to-last brace slice and the parse error yields the error default.) -/
theorem sentiment_embedded_json_amended (pre suf : String)
    (hpre : lbrace ∉ pre.toList) (hsuf : rbrace ∉ suf.toList) :
    sentimentParse (pre ++ targetObjText ++ suf) = targetSentimentRecord := by
  have hsplit : (pre ++ targetObjText ++ suf).toList =
      pre.toList ++ (targetObjText.toList ++ suf.toList) := by
    have h1 : (pre ++ targetObjText ++ suf).toList =
        (pre.toList ++ targetObjText.toList) ++ suf.toList := rfl
    rw [h1, List.append_assoc]
  have hfind : strFind (pre ++ targetObjText ++ suf).toList lbrace =
      some pre.toList.length := by
    rw [hsplit, strFind_append_of_none _ (strFind_eq_none hpre),
      strFind_append_of_some _ (show strFind targetObjText.toList lbrace = some 0 by decide)]
    simp
  have hrfind : strRfind (pre ++ targetObjText ++ suf).toList rbrace =
      some (pre.toList.length + 75) := by
    have hinner : strRfind (targetObjText.toList ++ suf.toList) rbrace = some 75 := by
      rw [strRfind_append_of_none _ (strRfind_eq_none hsuf)]
      decide
    rw [hsplit, strRfind_append_of_some _ hinner]
  unfold sentimentParse
  rw [hfind, hrfind]
  show (if pre.toList.length ≤ pre.toList.length + 75 then
      match parseJson (((pre ++ targetObjText ++ suf).toList.drop pre.toList.length).take
        (pre.toList.length + 75 + 1 - pre.toList.length)) with
      | some v => v
      | none => sentimentErrorDefault
    else sentimentNeutralDefault) = targetSentimentRecord
  rw [if_pos (Nat.le_add_right _ _)]
  have hslice : ((pre ++ targetObjText ++ suf).toList.drop pre.toList.length).take
      (pre.toList.length + 75 + 1 - pre.toList.length) = targetObjText.toList := by
    rw [hsplit, List.drop_left]
    rw [show pre.toList.length + 75 + 1 - pre.toList.length = 76 by omega]
    rw [show (76 : Nat) = targetObjText.toList.length by decide]
    exact List.take_left _ _
  rw [hslice, parseJson_targetObj]

theorem sentiment_embedded_json_amended_witness :
    sentimentParse ("noise before " ++ targetObjText ++ " and more after") =
      targetSentimentRecord :=
  sentiment_embedded_json_amended "noise before " " and more after" (by decide) (by decide)

/-- C8 (counterexample): a response that contains the exact target object
embedded in a larger string (here preceded by another JSON fragment and a
space) does not yield the target record: the slice from the first left
brace to the last right brace covers both fragments, json.loads fails on
it, and the except clause returns the error default instead. -/
theorem sentiment_embedded_json_cex :
    "\x7b\"a\":1\x7d " ++ targetObjText = "\x7b\"a\":1\x7d " ++ targetObjText ++ "" ∧
      sentimentParse ("\x7b\"a\":1\x7d " ++ targetObjText) = sentimentErrorDefault ∧
      jsonConfidence sentimentErrorDefault = some (0, 0) ∧
      jsonConfidence targetSentimentRecord = some (9, -1) ∧
      sentimentErrorDefault ≠ targetSentimentRecord := by
  refine ⟨rfl, rfl, rfl, rfl, ?_⟩
  intro h
  have hc := congrArg jsonConfidence h
  rw [show jsonConfidence sentimentErrorDefault = some ((0 : Int), (0 : Int)) from rfl,
    show jsonConfidence targetSentimentRecord = some ((9 : Int), (-1 : Int)) from rfl] at hc
  exact absurd hc (by decide)

end HunterCRM
